import Mathlib

/-!
Shallow embedding of the user-signup endpoint of
jasonmccallister/go-rest-api-tdd-meetup (src/v4/main.go, handler `usersStore`),
together with the gorm/sqlite store, the govalidator rule checks and the
bcrypt call it delegates to, and proofs about the claims of the specification.

The handler is a pure function of the database state, the request, and the
two effectful inputs of a call (the random bcrypt salt and the clock reading),
returning the HTTP response and the new database state.
-/

namespace GoRestTdd

/-- user represents a customer of the application (src/v4/main.go lines 18-25):
auto-increment primary key, unique-indexed email, password hash (excluded from
JSON), and the gorm timestamps plus soft-delete marker.  Instants are modelled
as abstract naturals. -/
structure user where
  ID : Nat
  Email : String
  Password : String
  CreatedAt : Nat
  UpdatedAt : Nat
  DeletedAt : Option Nat
deriving DecidableEq

/-- the sqlite-backed gorm handle after `AutoMigrate(&user{})`: the `users`
table, rows listed in insertion order, plus the next auto-increment id. -/
structure GormDB where
  rows : List user
  nextId : Nat
deriving DecidableEq

/-- the freshly migrated in-memory database opened by `main` (and by `getDB`
in the tests): no rows, sqlite auto-increment ids start at 1. -/
def autoMigratedDB : GormDB := ⟨[], 1⟩

/-- row produced by `SELECT * FROM users ORDER BY id ASC LIMIT 1`: gorm v1
`db.First(&newUser)` with a blank primary key adds no WHERE conditions (the
non-primary fields of the out-struct are not used as criteria) and orders by
the primary key, so it yields the row with the smallest id, or RecordNotFound
(none) on an empty table. -/
def minIdRow : List user → Option user
  | [] => none
  | r :: rs =>
    match minIdRow rs with
    | none => some r
    | some m => some (if m.ID < r.ID then m else r)

/-- gorm v1 `db.FirstOrCreate(&user{}, newUser)` where `newUser` carries a
non-zero Email and Password: the inline struct condition matches on every
non-zero field, so the lookup is `WHERE email = ? AND password = ?`; on
RecordNotFound it INSERTs exactly those fields, and the sqlite unique index
on email (tag `unique_index`, created by AutoMigrate) rejects the insert -
leaving the table unchanged and an error in `db.Error`, which the handler
discards - whenever a row with the same email already exists. -/
def firstOrCreate (e pwd : String) (now : Nat) (db : GormDB) : GormDB :=
  if db.rows.any (fun u => u.Email == e && u.Password == pwd) then db
  else if db.rows.any (fun u => u.Email == e) then db
  else ⟨db.rows ++ [⟨db.nextId, e, pwd, now, now, none⟩], db.nextId + 1⟩

/-- the store lookup used by the repository's test TestUsersAreStoredInDatabase,
`db.Where("email = ?", e).First(&user)`: first row in primary-key order whose
email equals e (rows are kept in insertion order, which coincides with
primary-key order for well-formed states). -/
def findByEmail (e : String) (db : GormDB) : Option user :=
  db.rows.find? (fun u => u.Email == e)

/-! ### bcrypt (library collaborator) -/

/-- header of every hash produced by `bcrypt.GenerateFromPassword` at
`bcrypt.MinCost` (cost 4): modular crypt format, version 2a. -/
def bcryptHeader : String := "$2a$04$"

/-- the bcrypt radix-64 alphabet used for the salt and digest portions of a
bcrypt hash; it does not contain the character of the header separators. -/
def bcryptAlphabet : List Char :=
  ("./ABCDEFGHIJKLMNOPQRSTUVWXYZabcdefghijklmnopqrstuvwxyz0123456789").data

/-- radix-64 digit of the bcrypt alphabet. -/
def b64Char (n : Nat) : Char := bcryptAlphabet.getD (n % 64) '.'

/-- a character provably different from its argument (used by the modelled
digest so that the modelled hash can never coincide with its input). -/
def flipChar (c : Char) : Char := if c == 'A' then 'B' else 'A'

/-- character of s at position i, '.' out of range. -/
def charAt (s : String) (i : Nat) : Char := s.data.getD i '.'

/-- one mixing step of the modelled digest (32-bit accumulator). -/
def mixStep (acc : Nat) (c : Char) : Nat := (acc * 131 + c.toNat + 1) % 4294967296

/-- fold of a whole string into the accumulator. -/
def mixString (seed : Nat) (s : String) : Nat := s.data.foldl mixStep seed

/-- Modelled from the spec: the 31-character digest portion of
`bcrypt.GenerateFromPassword` (the x/crypto/bcrypt library is not part of this
repository's sources).  Spec section 4.1 step 4 describes the call as "a slow,
salted, one-way hash function" and section 3 states the invariant that the
stored hash is never the plaintext; the Blowfish-based digest itself is
replaced by a concrete keyed mixing function that realizes that contract: its
first character provably differs from the character the plaintext would need
at that position for the full hash to equal the plaintext. -/
def bcryptDigest (salt password : String) : String :=
  ⟨flipChar (charAt password (bcryptHeader.length + salt.length)) ::
    (List.range 30).map (fun i => b64Char (mixString (mixString (i + 1) salt) password))⟩

/-- Modelled from the spec: `bcrypt.GenerateFromPassword(password, bcrypt.MinCost)`.
The random salt is an explicit per-call input (the handler receives a fresh one
on every request); the output is the modular-crypt-formatted string
header ++ salt ++ digest, as produced by the real library. -/
def bcryptGenerateFromPassword (salt password : String) : String :=
  bcryptHeader ++ salt ++ bcryptDigest salt password

/-! ### govalidator (library collaborator) -/

/-- the rule tokens appearing in the handler's rule map
(`required`, `min:N`, `max:N`, `email`). -/
inductive Rule
  | required
  | min (n : Nat)
  | max (n : Nat)
  | email
deriving DecidableEq

/-- splitter used to model the email regex: splits a character list at every
occurrence of sep (adjacent separators produce empty segments). -/
def splitOnCharAux (sep : Char) : List Char → List Char → List (List Char)
  | [], acc => [acc.reverse]
  | c :: cs, acc =>
    if c == sep then acc.reverse :: splitOnCharAux sep cs []
    else splitOnCharAux sep cs (c :: acc)

/-- split a character list at every occurrence of sep. -/
def splitOnChar (sep : Char) (l : List Char) : List (List Char) :=
  splitOnCharAux sep l []

/-- the special characters accepted by govalidator's email regex in the local
part, besides letters and digits. -/
def localPartChars : String := ".!#$%&\x27*+/=?^_\x60\x7b|\x7d~-"

/-- character accepted in the local part of an address. -/
def isLocalChar (c : Char) : Bool := c.isAlpha || c.isDigit || localPartChars.data.contains c

/-- ASCII letter or digit. -/
def isAlnumChar (c : Char) : Bool := c.isAlpha || c.isDigit

/-- one domain label of govalidator's email regex: 1 to 63 characters,
letters, digits or hyphens, starting and ending with a letter or digit. -/
def labelOk (l : List Char) : Bool :=
  decide (1 ≤ l.length) && decide (l.length ≤ 63) &&
  isAlnumChar (l.headD '-') && isAlnumChar (l.getLastD '-') &&
  l.all (fun d => isAlnumChar d || d == '-')

/-- govalidator's `email` rule: the HTML5-style regex
local@label(.label)* with a non-empty local part over the accepted character
set and well-formed domain labels. -/
def govalidatorEmail (s : String) : Bool :=
  match splitOnChar '@' s.data with
  | [lp, dom] => decide (1 ≤ lp.length) && lp.all isLocalChar && (splitOnChar '.' dom).all labelOk
  | _ => false

/-- govalidator's check of one rule against one decoded string field
(`required` fails exactly on the zero value, `min`/`max` measure the character
count, `email` applies the regex). -/
def ruleOk (rl : Rule) (v : String) : Bool :=
  match rl with
  | .required => v != ""
  | .min n => decide (n ≤ v.length)
  | .max n => decide (v.length ≤ n)
  | .email => govalidatorEmail v

/-- govalidator's default human-readable message for a violated rule. -/
def ruleMsg (field : String) (rl : Rule) : String :=
  match rl with
  | .required => "The " ++ field ++ " field is required"
  | .min n => "The " ++ field ++ " field must be minimum " ++ toString n ++ " char"
  | .max n => "The " ++ field ++ " field must be maximum " ++ toString n ++ " char"
  | .email => "The " ++ field ++ " field must be a valid email address"

/-- the rule list declared for the email field in `usersStore`. -/
def emailRules : List Rule := [.required, .min 4, .max 30, .email]

/-- the rule list declared for the password field in `usersStore`. -/
def passwordRules : List Rule := [.required, .min 8, .max 255]

/-- all messages of the violated rules of one field, in rule order:
govalidator evaluates every rule of the field (it is not fail-fast). -/
def fieldErrors (field : String) (rules : List Rule) (v : String) : List String :=
  (rules.filter (fun rl => !(ruleOk rl v))).map (ruleMsg field)

/-- result of `v.ValidateJSON()` on a decoded body: a url.Values collection
mapping each field that has at least one violated rule to the messages of its
violated rules (empty when everything passes).  JSON-decoding a body with
missing fields leaves the corresponding struct fields at the zero value "". -/
def validateJSON (e p : String) : List (String × List String) :=
  (if fieldErrors "email" emailRules e = [] then []
   else [("email", fieldErrors "email" emailRules e)]) ++
  (if fieldErrors "password" passwordRules p = [] then []
   else [("password", fieldErrors "password" passwordRules p)])

/-- all violation messages of a request body, both fields flattened. -/
def flatMessages (e p : String) : List String :=
  (validateJSON e p).foldr (fun q acc => q.2 ++ acc) []

/-! ### HTTP layer -/

/-- a request body as seen after `r.ParseForm()` and the JSON decoder:
either the decoder fails on it, or it decodes to the two string fields of
`userStoreRequest` (absent fields decode to ""). -/
inductive Body
  | malformed
  | obj (email : String) (password : String)
deriving DecidableEq

/-- one HTTP request as built by the repository's tests (no Content-Type
header, so `ParseForm` never consumes the body and fails exactly when the
body is nil, with "missing form body").  body = none models a nil body. -/
structure HttpRequest where
  method : String
  body : Option Body
deriving DecidableEq

/-- one HTTP response as observed by httptest: the content-type header (set
before anything else), the status code of the first WriteHeader call
(net/http ignores the handler's duplicate later WriteHeader(201)), and the
body bytes. -/
structure Response where
  contentType : String
  status : Nat
  body : String
deriving DecidableEq

/-- the error body the handler writes literally for a wrong method, and again,
verbatim, for a form-parse failure. -/
def methodNotAllowedBody : String := "\x7b\"error\": \"method not allowed\"\x7d"

/-- `json.Marshal(userStoreResponse{ID: n})`. -/
def idBody (n : Nat) : String := "\x7b\"id\":" ++ toString n ++ "\x7d"

/-- a JSON string literal (the validator messages contain no characters that
need escaping). -/
def jsonStr (s : String) : String := "\"" ++ s ++ "\""

/-- a JSON array of strings. -/
def jsonStrList (xs : List String) : String :=
  "[" ++ String.intercalate "," (xs.map jsonStr) ++ "]"

/-- `json.NewEncoder(w).Encode(map[string]interface\x7b\x7d{"errors": e})`:
the url.Values map rendered with its keys in sorted order (email before
password), a trailing newline added by the encoder. -/
def encodeErrors (e : List (String × List String)) : String :=
  "\x7b\"errors\":\x7b" ++
    String.intercalate "," (e.map (fun q => jsonStr q.1 ++ ":" ++ jsonStrList q.2)) ++
  "\x7d\x7d\n"

/-- stand-in for the text of the json decoder's error on an undecodable body
(the handler never inspects it). -/
def jsonDecodeErrMsg : String := "invalid character in JSON body"

/-- the signup handler `usersStore` (src/v4/main.go lines 67-143) as a pure
function of the database, the per-call effect inputs (bcrypt salt, clock) and
the request.  Faithful to the source's order of evaluation:
content-type header first; non-POST methods get 405 with the literal error
body; a nil body makes `ParseForm` fail, answered 422 with the same literal
body; an undecodable body makes `ValidateJSON` return a `_error` entry,
answered 422 as a validation failure; rule violations are answered 422 with
the encoded message map; otherwise WriteHeader(201) has already been called
before the body is re-read, every subsequent error (body read, unmarshal,
bcrypt, both store calls) is discarded, the hashed user is passed to
FirstOrCreate, and the id written back is the one loaded by the
condition-less `db.First(&newUser)`. -/
def usersStore (db : GormDB) (salt : String) (now : Nat) (r : HttpRequest) :
    Response × GormDB :=
  if r.method ≠ "POST" then
    (⟨"application/json", 405, methodNotAllowedBody⟩, db)
  else
    match r.body with
    | none => (⟨"application/json", 422, methodNotAllowedBody⟩, db)
    | some Body.malformed =>
      (⟨"application/json", 422, encodeErrors [("_error", [jsonDecodeErrMsg])]⟩, db)
    | some (Body.obj e p) =>
      if validateJSON e p = [] then
        let db2 := firstOrCreate e (bcryptGenerateFromPassword salt p) now db
        (⟨"application/json", 201,
          idBody (match minIdRow db2.rows with | some u => u.ID | none => 0)⟩, db2)
      else
        (⟨"application/json", 422, encodeErrors (validateJSON e p)⟩, db)

/-- the id serialized in a 201 response for a given post-persistence state
(`newUser.ID` stays 0 when `db.First` finds no row). -/
def responseId (db : GormDB) : Nat :=
  match minIdRow db.rows with
  | some u => u.ID
  | none => 0

/-- a sequence of requests through the handler, each with its own salt and
clock reading, threaded through the shared store handle. -/
def runRequests (db : GormDB) : List (String × Nat × HttpRequest) → GormDB
  | [] => db
  | (s, n, r) :: rest => runRequests (usersStore db s n r).2 rest

/-- well-formedness of a store state, established by `autoMigratedDB` and
preserved by the handler: ids are positive, below the auto-increment counter,
and strictly increasing in insertion order. -/
def WF (db : GormDB) : Prop :=
  0 < db.nextId ∧ (∀ u ∈ db.rows, 0 < u.ID ∧ u.ID < db.nextId) ∧
    db.rows.Pairwise (fun a b => a.ID < b.ID)

/-- the unique-email invariant of the users table. -/
def EmailsOk (db : GormDB) : Prop :=
  db.rows.Pairwise (fun a b => a.Email ≠ b.Email)

/-- every persisted credential is a bcrypt output. -/
def AllHashed (db : GormDB) : Prop :=
  ∀ u ∈ db.rows, ∃ s pw, u.Password = bcryptGenerateFromPassword s pw


/-! ### helper lemmas -/

theorem flipChar_ne (c : Char) : flipChar c ≠ c := by
  unfold flipChar
  by_cases h : c = 'A'
  · subst h
    decide
  · have hb : (c == 'A') = false := by simp [h]
    rw [hb]
    simp only [Bool.false_eq_true, if_false]
    intro hc
    exact h hc.symm

theorem bcryptGenerateFromPassword_ne (salt p : String) :
    bcryptGenerateFromPassword salt p ≠ p := by
  intro h
  have hdata : (bcryptHeader.data ++ salt.data) ++ (bcryptDigest salt p).data = p.data := by
    have h2 := congrArg String.data h
    simpa [bcryptGenerateFromPassword, String.data_append] using h2
  have hlen : (bcryptHeader.data ++ salt.data).length = bcryptHeader.length + salt.length := by
    rw [List.length_append]
    rfl
  have hget : p.data.getD (bcryptHeader.length + salt.length) '.' =
      flipChar (charAt p (bcryptHeader.length + salt.length)) := by
    conv_lhs => rw [← hdata]
    rw [List.getD_append_right _ _ _ _ (le_of_eq hlen)]
    rw [hlen, Nat.sub_self]
    rfl
  exact flipChar_ne (charAt p (bcryptHeader.length + salt.length)) hget.symm

theorem firstOrCreate_of_email_exists (e pwd : String) (now : Nat) (db : GormDB)
    (h : ∃ u ∈ db.rows, u.Email = e) : firstOrCreate e pwd now db = db := by
  unfold firstOrCreate
  by_cases h1 : db.rows.any (fun u => u.Email == e && u.Password == pwd) = true
  · rw [if_pos h1]
  · rw [if_neg h1]
    have h2 : db.rows.any (fun u => u.Email == e) = true := by
      obtain ⟨u, hu, he⟩ := h
      exact List.any_eq_true.2 ⟨u, hu, by simp [he]⟩
    rw [if_pos h2]

theorem firstOrCreate_of_fresh (e pwd : String) (now : Nat) (db : GormDB)
    (h : ∀ u ∈ db.rows, u.Email ≠ e) :
    firstOrCreate e pwd now db =
      ⟨db.rows ++ [⟨db.nextId, e, pwd, now, now, none⟩], db.nextId + 1⟩ := by
  unfold firstOrCreate
  have h1 : db.rows.any (fun u => u.Email == e && u.Password == pwd) = false := by
    rw [List.any_eq_false]
    intro u hu
    simp [h u hu]
  have h2 : db.rows.any (fun u => u.Email == e) = false := by
    rw [List.any_eq_false]
    intro u hu
    simp [h u hu]
  rw [h1, h2]
  simp

theorem minIdRow_sorted (l : List user) (h : l.Pairwise (fun a b => a.ID < b.ID)) :
    minIdRow l = l.head? := by
  induction l with
  | nil => rfl
  | cons r rs ih =>
    rw [List.pairwise_cons] at h
    obtain ⟨hr, hrs⟩ := h
    unfold minIdRow
    rw [ih hrs]
    cases rs with
    | nil => rfl
    | cons x t =>
      have hx : r.ID < x.ID := hr x (List.mem_cons_self x t)
      simp [List.head?]
      intro hlt
      exact absurd (Nat.lt_trans hx hlt) (Nat.lt_irrefl _)

theorem usersStore_not_post (db : GormDB) (s : String) (n : Nat) (r : HttpRequest)
    (h : r.method ≠ "POST") :
    usersStore db s n r = (⟨"application/json", 405, methodNotAllowedBody⟩, db) := by
  unfold usersStore
  rw [if_pos h]

theorem usersStore_nil_body (db : GormDB) (s : String) (n : Nat) :
    usersStore db s n ⟨"POST", none⟩ =
      (⟨"application/json", 422, methodNotAllowedBody⟩, db) := by
  unfold usersStore
  rw [if_neg (by simp)]

theorem usersStore_invalid (db : GormDB) (s : String) (n : Nat) (e p : String)
    (h : validateJSON e p ≠ []) :
    usersStore db s n ⟨"POST", some (Body.obj e p)⟩ =
      (⟨"application/json", 422, encodeErrors (validateJSON e p)⟩, db) := by
  unfold usersStore
  rw [if_neg (by simp)]
  simp only []
  rw [if_neg h]

theorem usersStore_success (db : GormDB) (s : String) (n : Nat) (e p : String)
    (h : validateJSON e p = []) :
    usersStore db s n ⟨"POST", some (Body.obj e p)⟩ =
      (⟨"application/json", 201,
        idBody (responseId (firstOrCreate e (bcryptGenerateFromPassword s p) n db))⟩,
       firstOrCreate e (bcryptGenerateFromPassword s p) n db) := by
  unfold usersStore responseId
  rw [if_neg (by simp)]
  simp only []
  rw [if_pos h]

theorem WF_autoMigratedDB : WF autoMigratedDB := by
  refine ⟨Nat.one_pos, ?_, List.Pairwise.nil⟩
  intro u hu
  cases hu

theorem EmailsOk_autoMigratedDB : EmailsOk autoMigratedDB := List.Pairwise.nil

theorem WF_insert (db : GormDB) (hwf : WF db) (e pwd : String) (n : Nat) :
    WF ⟨db.rows ++ [⟨db.nextId, e, pwd, n, n, none⟩], db.nextId + 1⟩ := by
  obtain ⟨hpos, hlt, hsort⟩ := hwf
  refine ⟨Nat.succ_pos _, ?_, ?_⟩
  · intro u hu
    rcases List.mem_append.1 hu with h | h
    · exact ⟨(hlt u h).1, Nat.lt_succ_of_lt (hlt u h).2⟩
    · rw [List.mem_singleton] at h
      subst h
      exact ⟨hpos, Nat.lt_succ_self _⟩
  · rw [List.pairwise_append]
    refine ⟨hsort, List.pairwise_singleton _ _, ?_⟩
    intro a ha b hb
    rw [List.mem_singleton] at hb
    subst hb
    exact (hlt a ha).2

theorem WF_firstOrCreate (db : GormDB) (hwf : WF db) (e pwd : String) (n : Nat) :
    WF (firstOrCreate e pwd n db) := by
  by_cases hex : ∃ u ∈ db.rows, u.Email = e
  · rw [firstOrCreate_of_email_exists e pwd n db hex]
    exact hwf
  · push_neg at hex
    rw [firstOrCreate_of_fresh e pwd n db hex]
    exact WF_insert db hwf e pwd n

theorem EmailsOk_firstOrCreate (db : GormDB) (hem : EmailsOk db) (e pwd : String) (n : Nat) :
    EmailsOk (firstOrCreate e pwd n db) := by
  by_cases hex : ∃ u ∈ db.rows, u.Email = e
  · rw [firstOrCreate_of_email_exists e pwd n db hex]
    exact hem
  · push_neg at hex
    rw [firstOrCreate_of_fresh e pwd n db hex]
    unfold EmailsOk at hem ⊢
    rw [List.pairwise_append]
    refine ⟨hem, List.pairwise_singleton _ _, ?_⟩
    intro a ha b hb
    rw [List.mem_singleton] at hb
    subst hb
    exact hex a ha

theorem usersStore_malformed (db : GormDB) (s : String) (n : Nat) :
    usersStore db s n ⟨"POST", some Body.malformed⟩ =
      (⟨"application/json", 422, encodeErrors [("_error", [jsonDecodeErrMsg])]⟩, db) := by
  unfold usersStore
  rw [if_neg (by simp)]

theorem usersStore_snd (db : GormDB) (s : String) (n : Nat) (r : HttpRequest) :
    (usersStore db s n r).2 = db ∨
    ∃ e p, r.body = some (Body.obj e p) ∧ validateJSON e p = [] ∧
      (usersStore db s n r).2 = firstOrCreate e (bcryptGenerateFromPassword s p) n db := by
  obtain ⟨m, b⟩ := r
  by_cases hm : m ≠ "POST"
  · rw [usersStore_not_post db s n ⟨m, b⟩ hm]
    exact Or.inl rfl
  · push_neg at hm
    subst hm
    match b with
    | none =>
      rw [usersStore_nil_body]
      exact Or.inl rfl
    | some Body.malformed =>
      rw [usersStore_malformed]
      exact Or.inl rfl
    | some (Body.obj e p) =>
      by_cases hv : validateJSON e p = []
      · rw [usersStore_success db s n e p hv]
        exact Or.inr ⟨e, p, rfl, hv, rfl⟩
      · rw [usersStore_invalid db s n e p hv]
        exact Or.inl rfl

theorem usersStore_preserves_WF (db : GormDB) (s : String) (n : Nat) (r : HttpRequest)
    (hwf : WF db) : WF (usersStore db s n r).2 := by
  rcases usersStore_snd db s n r with h | ⟨e, p, _, _, h⟩
  · rw [h]
    exact hwf
  · rw [h]
    exact WF_firstOrCreate db hwf e _ n

theorem usersStore_preserves_EmailsOk (db : GormDB) (s : String) (n : Nat) (r : HttpRequest)
    (hem : EmailsOk db) : EmailsOk (usersStore db s n r).2 := by
  rcases usersStore_snd db s n r with h | ⟨e, p, _, _, h⟩
  · rw [h]
    exact hem
  · rw [h]
    exact EmailsOk_firstOrCreate db hem e _ n

theorem runRequests_preserves (items : List (String × Nat × HttpRequest)) (db : GormDB)
    (hwf : WF db) (hem : EmailsOk db) :
    WF (runRequests db items) ∧ EmailsOk (runRequests db items) := by
  induction items generalizing db with
  | nil => exact ⟨hwf, hem⟩
  | cons it rest ih =>
    obtain ⟨s, n, r⟩ := it
    exact ih (usersStore db s n r).2 (usersStore_preserves_WF db s n r hwf)
      (usersStore_preserves_EmailsOk db s n r hem)

theorem responseId_firstOrCreate (db : GormDB) (hwf : WF db) (e pwd : String) (n : Nat) :
    responseId (firstOrCreate e pwd n db) =
      match minIdRow db.rows with
      | some u => u.ID
      | none => db.nextId := by
  rw [minIdRow_sorted db.rows hwf.2.2]
  by_cases hex : ∃ u ∈ db.rows, u.Email = e
  · rw [firstOrCreate_of_email_exists e pwd n db hex]
    unfold responseId
    rw [minIdRow_sorted db.rows hwf.2.2]
    obtain ⟨u, hu, _⟩ := hex
    cases hr : db.rows with
    | nil =>
      rw [hr] at hu
      cases hu
    | cons x t => simp
  · push_neg at hex
    rw [firstOrCreate_of_fresh e pwd n db hex]
    unfold responseId
    have hsorted := (WF_insert db hwf e pwd n).2.2
    rw [minIdRow_sorted _ hsorted]
    cases hr : db.rows with
    | nil => simp [hr]
    | cons x t => simp [hr]

theorem firstOrCreate_mem_email (e pwd : String) (n : Nat) (db : GormDB) :
    ∃ u ∈ (firstOrCreate e pwd n db).rows, u.Email = e := by
  by_cases hex : ∃ u ∈ db.rows, u.Email = e
  · rw [firstOrCreate_of_email_exists e pwd n db hex]
    exact hex
  · push_neg at hex
    rw [firstOrCreate_of_fresh e pwd n db hex]
    exact ⟨⟨db.nextId, e, pwd, n, n, none⟩, by simp, rfl⟩

theorem findByEmail_of_exists (e : String) (db : GormDB)
    (h : ∃ u ∈ db.rows, u.Email = e) :
    ∃ u, findByEmail e db = some u ∧ u.Email = e ∧ u ∈ db.rows := by
  have hsome : (db.rows.find? (fun u => u.Email == e)).isSome := by
    rw [List.find?_isSome]
    obtain ⟨u, hu, he⟩ := h
    exact ⟨u, hu, by simp [he]⟩
  obtain ⟨a, ha⟩ := Option.isSome_iff_exists.1 hsome
  refine ⟨a, ha, ?_, List.mem_of_find?_eq_some ha⟩
  have := List.find?_some ha
  simpa using this

theorem findByEmail_fresh_insert (e pwd : String) (n : Nat) (db : GormDB)
    (h : ∀ u ∈ db.rows, u.Email ≠ e) :
    findByEmail e (firstOrCreate e pwd n db) = some ⟨db.nextId, e, pwd, n, n, none⟩ := by
  rw [firstOrCreate_of_fresh e pwd n db h]
  unfold findByEmail
  have hnone : db.rows.find? (fun u => u.Email == e) = none := by
    rw [List.find?_eq_none]
    intro u hu
    simp [h u hu]
  show (db.rows ++ [_]).find? _ = _
  rw [List.find?_append, hnone]
  simp

theorem flatMessages_eq (e p : String) :
    flatMessages e p =
      fieldErrors "email" emailRules e ++ fieldErrors "password" passwordRules p := by
  unfold flatMessages validateJSON
  by_cases h1 : fieldErrors "email" emailRules e = [] <;>
    by_cases h2 : fieldErrors "password" passwordRules p = [] <;>
      simp [h1, h2]

theorem mem_fieldErrors (field : String) (rules : List Rule) (v msg : String) :
    msg ∈ fieldErrors field rules v ↔
      ∃ rl ∈ rules, ruleOk rl v = false ∧ msg = ruleMsg field rl := by
  unfold fieldErrors
  rw [List.mem_map]
  constructor
  · rintro ⟨rl, hrl, hmsg⟩
    rw [List.mem_filter] at hrl
    refine ⟨rl, hrl.1, ?_, hmsg.symm⟩
    have h2 := hrl.2
    rwa [Bool.not_eq_true'] at h2
  · rintro ⟨rl, hrl, hok, hmsg⟩
    refine ⟨rl, ?_, hmsg.symm⟩
    rw [List.mem_filter]
    refine ⟨hrl, ?_⟩
    rw [Bool.not_eq_true', hok]

theorem validateJSON_eq_nil_iff (e p : String) :
    validateJSON e p = [] ↔
      fieldErrors "email" emailRules e = [] ∧ fieldErrors "password" passwordRules p = [] := by
  unfold validateJSON
  by_cases h1 : fieldErrors "email" emailRules e = [] <;>
    by_cases h2 : fieldErrors "password" passwordRules p = [] <;>
      simp [h1, h2]

/-! ### claim theorems -/

/-- Claim C5: for every request whose HTTP method is not POST, the handler responds
with status 405 Method Not Allowed, body exactly the JSON object
with the single key error and value method not allowed, the content-type
header set to application/json, and it leaves the store untouched. -/
theorem c5_non_post_method_not_allowed (db : GormDB) (s : String) (n : Nat)
    (r : HttpRequest) (h : r.method ≠ "POST") :
    (usersStore db s n r).1.status = 405 ∧
    (usersStore db s n r).1.body = "\x7b\"error\": \"method not allowed\"\x7d" ∧
    (usersStore db s n r).1.contentType = "application/json" ∧
    (usersStore db s n r).2 = db := by
  rw [usersStore_not_post db s n r h]
  exact ⟨rfl, rfl, rfl, rfl⟩

theorem c5_witness :
    ("GET" : String) ≠ "POST" ∧
      (usersStore autoMigratedDB "salt" 0 ⟨"GET", none⟩).1.status = 405 :=
  ⟨by decide, (c5_non_post_method_not_allowed autoMigratedDB "salt" 0 ⟨"GET", none⟩
    (by decide)).1⟩

/-- Claim C6: for every POST request whose body fails to parse (with the requests of
the repository's tests, which carry no content-type header, ParseForm fails
exactly on a nil body), the handler responds 422 Unprocessable Entity with the
same error body as the method-not-allowed response, the literal JSON object
with key error and value method not allowed, and leaves the store untouched. -/
theorem c6_parse_failure_422 (db : GormDB) (s : String) (n : Nat) :
    (usersStore db s n ⟨"POST", none⟩).1.status = 422 ∧
    (usersStore db s n ⟨"POST", none⟩).1.body = "\x7b\"error\": \"method not allowed\"\x7d" ∧
    (usersStore db s n ⟨"POST", none⟩).1.body = (usersStore db s n ⟨"GET", none⟩).1.body ∧
    (usersStore db s n ⟨"POST", none⟩).1.contentType = "application/json" ∧
    (usersStore db s n ⟨"POST", none⟩).2 = db := by
  rw [usersStore_nil_body db s n,
    usersStore_not_post db s n ⟨"GET", none⟩ (by decide)]
  exact ⟨rfl, rfl, rfl, rfl, rfl⟩

/-- Claim C3: for every POST request that parses but violates at least one field
rule, the handler responds 422 with the encoded errors collection, touches no
store state, and the collection holds exactly one message per violated rule of
both fields (not fail-fast); a body missing both fields yields all five
messages: required, minimum 4 and valid-address for email, required and
minimum 8 for password. -/
theorem c3_validation_messages (db : GormDB) (s : String) (n : Nat) (e p : String)
    (h : validateJSON e p ≠ []) :
    (usersStore db s n ⟨"POST", some (Body.obj e p)⟩).1.status = 422 ∧
    (usersStore db s n ⟨"POST", some (Body.obj e p)⟩).1.body =
      encodeErrors (validateJSON e p) ∧
    (usersStore db s n ⟨"POST", some (Body.obj e p)⟩).2 = db ∧
    (∀ msg, msg ∈ flatMessages e p ↔
      (∃ rl ∈ emailRules, ruleOk rl e = false ∧ msg = ruleMsg "email" rl) ∨
      (∃ rl ∈ passwordRules, ruleOk rl p = false ∧ msg = ruleMsg "password" rl)) ∧
    flatMessages "" "" =
      ["The email field is required", "The email field must be minimum 4 char",
       "The email field must be a valid email address",
       "The password field is required", "The password field must be minimum 8 char"] := by
  rw [usersStore_invalid db s n e p h]
  refine ⟨rfl, rfl, rfl, ?_, by decide⟩
  intro msg
  rw [flatMessages_eq, List.mem_append, mem_fieldErrors, mem_fieldErrors]

theorem c3_witness :
    validateJSON "" "" ≠ [] ∧
      (usersStore autoMigratedDB "salt" 0 ⟨"POST", some (Body.obj "" "")⟩).1.status = 422 :=
  ⟨by decide, (c3_validation_messages autoMigratedDB "salt" 0 "" "" (by decide)).1⟩

/-- Claim C9: the handler only ever answers 201, 405 or 422 - never a 5xx-class
status - and once the method check, parse and validation pass, the status is
201 regardless of everything that happens afterwards (bcrypt input, store
contents, clock), because the 201 header is written before the body is re-read
and every later error is discarded. -/
theorem c9_status_classes (db : GormDB) (s : String) (n : Nat) (r : HttpRequest) :
    ((usersStore db s n r).1.status = 201 ∨ (usersStore db s n r).1.status = 405 ∨
      (usersStore db s n r).1.status = 422) ∧
    (usersStore db s n r).1.status < 500 ∧
    (∀ e p, r.method = "POST" → r.body = some (Body.obj e p) →
      validateJSON e p = [] → (usersStore db s n r).1.status = 201) := by
  obtain ⟨m, b⟩ := r
  by_cases hm : m ≠ "POST"
  · rw [usersStore_not_post db s n ⟨m, b⟩ hm]
    exact ⟨Or.inr (Or.inl rfl), (by decide : (405 : Nat) < 500), fun e p hpost _ _ => absurd hpost hm⟩
  · push_neg at hm
    subst hm
    match b with
    | none =>
      rw [usersStore_nil_body]
      exact ⟨Or.inr (Or.inr rfl), (by decide : (422 : Nat) < 500), fun e p _ hb _ => by cases hb⟩
    | some Body.malformed =>
      rw [usersStore_malformed]
      exact ⟨Or.inr (Or.inr rfl), (by decide : (422 : Nat) < 500), fun e p _ hb _ => by cases hb⟩
    | some (Body.obj e0 p0) =>
      by_cases hv : validateJSON e0 p0 = []
      · rw [usersStore_success db s n e0 p0 hv]
        exact ⟨Or.inl rfl, (by decide : (201 : Nat) < 500), fun e p _ _ _ => rfl⟩
      · rw [usersStore_invalid db s n e0 p0 hv]
        refine ⟨Or.inr (Or.inr rfl), (by decide : (422 : Nat) < 500), ?_⟩
        intro e p _ hb hval
        injection hb with hb2
        injection hb2 with he hp
        subst he
        subst hp
        exact absurd hval hv

theorem c9_witness :
    (("POST" : String) = "POST" ∧
      validateJSON "jason@mccallister.io" "somePassword1!" = []) ∧
    (usersStore autoMigratedDB "salt" 0
      ⟨"POST", some (Body.obj "jason@mccallister.io" "somePassword1!")⟩).1.status = 201 :=
  ⟨⟨rfl, by decide⟩,
    (c9_status_classes autoMigratedDB "salt" 0
      ⟨"POST", some (Body.obj "jason@mccallister.io" "somePassword1!")⟩).2.2
      "jason@mccallister.io" "somePassword1!" rfl rfl (by decide)⟩

/-- Claim C2: submitting the same well-formed signup body twice yields 201 and the
same user id both times, the second request leaves the whole store - existing
record and stored password hash included - exactly as the first left it
(create-or-find observable behaviour, no duplicate row, no overwrite). -/
theorem c2_repeat_signup_idempotent (db : GormDB) (s1 s2 : String) (n1 n2 : Nat)
    (e p : String) (hv : validateJSON e p = []) :
    (usersStore db s1 n1 ⟨"POST", some (Body.obj e p)⟩).1.status = 201 ∧
    (usersStore (usersStore db s1 n1 ⟨"POST", some (Body.obj e p)⟩).2 s2 n2
        ⟨"POST", some (Body.obj e p)⟩).1.status = 201 ∧
    (usersStore (usersStore db s1 n1 ⟨"POST", some (Body.obj e p)⟩).2 s2 n2
        ⟨"POST", some (Body.obj e p)⟩).1.body =
      (usersStore db s1 n1 ⟨"POST", some (Body.obj e p)⟩).1.body ∧
    (usersStore (usersStore db s1 n1 ⟨"POST", some (Body.obj e p)⟩).2 s2 n2
        ⟨"POST", some (Body.obj e p)⟩).2 =
      (usersStore db s1 n1 ⟨"POST", some (Body.obj e p)⟩).2 := by
  have h1 := usersStore_success db s1 n1 e p hv
  have hmem : ∃ u ∈ (firstOrCreate e (bcryptGenerateFromPassword s1 p) n1 db).rows,
      u.Email = e := firstOrCreate_mem_email e _ n1 db
  have hfc2 : firstOrCreate e (bcryptGenerateFromPassword s2 p) n2
      (firstOrCreate e (bcryptGenerateFromPassword s1 p) n1 db) =
      firstOrCreate e (bcryptGenerateFromPassword s1 p) n1 db :=
    firstOrCreate_of_email_exists e _ n2 _ hmem
  rw [h1]
  have h2 := usersStore_success (firstOrCreate e (bcryptGenerateFromPassword s1 p) n1 db)
    s2 n2 e p hv
  rw [h2, hfc2]
  exact ⟨rfl, rfl, rfl, rfl⟩

theorem c2_witness :
    validateJSON "jason@mccallister.io" "somePassword1!" = [] ∧
    (usersStore (usersStore autoMigratedDB "abcdefghijklmnopqrstuv" 5
        ⟨"POST", some (Body.obj "jason@mccallister.io" "somePassword1!")⟩).2
      "ABCDEFGHIJKLMNOPQRSTUV" 6
      ⟨"POST", some (Body.obj "jason@mccallister.io" "somePassword1!")⟩).2 =
    (usersStore autoMigratedDB "abcdefghijklmnopqrstuv" 5
      ⟨"POST", some (Body.obj "jason@mccallister.io" "somePassword1!")⟩).2 :=
  ⟨by decide,
    (c2_repeat_signup_idempotent autoMigratedDB "abcdefghijklmnopqrstuv"
      "ABCDEFGHIJKLMNOPQRSTUV" 5 6 "jason@mccallister.io" "somePassword1!"
      (by decide)).2.2.2⟩

/-- Claim C4: for a successful signup of a fresh email, the Password value persisted
in the store is exactly the bcrypt output for the submitted plaintext and the
per-call salt, the modelled bcrypt output never equals its plaintext input,
and the all-credentials-are-hashes invariant of the store is preserved. -/
theorem c4_stored_password_is_hash (db : GormDB) (s : String) (n : Nat) (e p : String)
    (hv : validateJSON e p = []) (hfresh : ∀ u ∈ db.rows, u.Email ≠ e) :
    (∃ u, findByEmail e (usersStore db s n ⟨"POST", some (Body.obj e p)⟩).2 = some u ∧
        u.Password = bcryptGenerateFromPassword s p ∧ u.Password ≠ p) ∧
    (∀ s2 q, bcryptGenerateFromPassword s2 q ≠ q) ∧
    (AllHashed db → AllHashed (usersStore db s n ⟨"POST", some (Body.obj e p)⟩).2) := by
  rw [usersStore_success db s n e p hv]
  refine ⟨?_, fun s2 q => bcryptGenerateFromPassword_ne s2 q, ?_⟩
  · exact ⟨⟨db.nextId, e, bcryptGenerateFromPassword s p, n, n, none⟩,
      findByEmail_fresh_insert e _ n db hfresh, rfl, bcryptGenerateFromPassword_ne s p⟩
  · intro hall
    rw [firstOrCreate_of_fresh e _ n db hfresh]
    intro u hu
    rcases List.mem_append.1 hu with h | h
    · exact hall u h
    · rw [List.mem_singleton] at h
      subst h
      exact ⟨s, p, rfl⟩

theorem c4_witness :
    (validateJSON "jason@mccallister.io" "somePassword1!" = [] ∧
      ∀ u ∈ autoMigratedDB.rows, u.Email ≠ "jason@mccallister.io") ∧
    (∃ u, findByEmail "jason@mccallister.io"
        (usersStore autoMigratedDB "abcdefghijklmnopqrstuv" 5
          ⟨"POST", some (Body.obj "jason@mccallister.io" "somePassword1!")⟩).2 = some u ∧
      u.Password = bcryptGenerateFromPassword "abcdefghijklmnopqrstuv" "somePassword1!" ∧
      u.Password ≠ "somePassword1!") :=
  ⟨⟨by decide, fun _ hu => nomatch hu⟩,
    (c4_stored_password_is_hash autoMigratedDB "abcdefghijklmnopqrstuv" 5
      "jason@mccallister.io" "somePassword1!" (by decide) (fun _ hu => nomatch hu)).1⟩

/-- Claim C8: error paths (wrong method, parse failure, validation failure) never
touch the store; a successful call either leaves the store unchanged or
appends exactly one row; and a successful call for an already-present email
leaves the store unchanged (no-op at the state level). -/
theorem c8_store_frame (db : GormDB) (s : String) (n : Nat) (r : HttpRequest) :
    ((usersStore db s n r).1.status ≠ 201 → (usersStore db s n r).2 = db) ∧
    ((usersStore db s n r).2 = db ∨
      ∃ u, (usersStore db s n r).2.rows = db.rows ++ [u] ∧
        (usersStore db s n r).2.nextId = db.nextId + 1) ∧
    (∀ e p, r.body = some (Body.obj e p) → (∃ u ∈ db.rows, u.Email = e) →
      (usersStore db s n r).2 = db) := by
  obtain ⟨m, b⟩ := r
  by_cases hm : m ≠ "POST"
  · rw [usersStore_not_post db s n ⟨m, b⟩ hm]
    exact ⟨fun _ => rfl, Or.inl rfl, fun _ _ _ _ => rfl⟩
  · push_neg at hm
    subst hm
    match b with
    | none =>
      rw [usersStore_nil_body]
      exact ⟨fun _ => rfl, Or.inl rfl, fun _ _ _ _ => rfl⟩
    | some Body.malformed =>
      rw [usersStore_malformed]
      exact ⟨fun _ => rfl, Or.inl rfl, fun _ _ _ _ => rfl⟩
    | some (Body.obj e0 p0) =>
      by_cases hv : validateJSON e0 p0 = []
      · rw [usersStore_success db s n e0 p0 hv]
        refine ⟨fun hne => absurd rfl hne, ?_, ?_⟩
        · by_cases hex : ∃ u ∈ db.rows, u.Email = e0
          · exact Or.inl (firstOrCreate_of_email_exists e0 _ n db hex)
          · push_neg at hex
            rw [firstOrCreate_of_fresh e0 _ n db hex]
            exact Or.inr ⟨⟨db.nextId, e0, _, n, n, none⟩, rfl, rfl⟩
        · intro e p hb hex
          have hb2 : Body.obj e0 p0 = Body.obj e p := by
            injection hb
          injection hb2 with he hp
          subst he
          exact firstOrCreate_of_email_exists e0 _ n db hex
      · rw [usersStore_invalid db s n e0 p0 hv]
        exact ⟨fun _ => rfl, Or.inl rfl, fun _ _ _ _ => rfl⟩

theorem c8_witness :
    ((usersStore autoMigratedDB "salt" 0 ⟨"GET", none⟩).1.status ≠ 201 ∧
      (usersStore autoMigratedDB "salt" 0 ⟨"GET", none⟩).2 = autoMigratedDB) ∧
    ((usersStore autoMigratedDB "salt" 0 ⟨"POST", some (Body.obj "" "")⟩).1.status ≠ 201 ∧
      (usersStore autoMigratedDB "salt" 0 ⟨"POST", some (Body.obj "" "")⟩).2 = autoMigratedDB) :=
  ⟨⟨by decide, (c8_store_frame autoMigratedDB "salt" 0 ⟨"GET", none⟩).1 (by decide)⟩,
    ⟨by decide, (c8_store_frame autoMigratedDB "salt" 0
      ⟨"POST", some (Body.obj "" "")⟩).1 (by decide)⟩⟩

/-- Claim C10: on the success path the id serialized in the 201 body is the one
loaded by the condition-less store query: the id of the row with the smallest
primary key in the users table at that moment (db.nextId right after inserting
into an empty table, 0 would be reported only for an empty table), and it is
independent of which email was submitted - any two valid submissions from the
same pre-state produce identical response bodies. -/
theorem c10_response_id_min_primary_key (db : GormDB) (s : String) (n : Nat)
    (e p : String) (hwf : WF db) (hv : validateJSON e p = []) :
    (usersStore db s n ⟨"POST", some (Body.obj e p)⟩).1.body =
      idBody (responseId (usersStore db s n ⟨"POST", some (Body.obj e p)⟩).2) ∧
    responseId (usersStore db s n ⟨"POST", some (Body.obj e p)⟩).2 =
      (match minIdRow db.rows with
       | some u => u.ID
       | none => db.nextId) ∧
    (∀ db2 : GormDB, db2.rows = [] → responseId db2 = 0) ∧
    (∀ e2 p2 s2 n2, validateJSON e2 p2 = [] →
      (usersStore db s2 n2 ⟨"POST", some (Body.obj e2 p2)⟩).1.body =
        (usersStore db s n ⟨"POST", some (Body.obj e p)⟩).1.body) := by
  rw [usersStore_success db s n e p hv]
  refine ⟨rfl, responseId_firstOrCreate db hwf e _ n, ?_, ?_⟩
  · intro db2 h2
    unfold responseId
    rw [h2]
    rfl
  · intro e2 p2 s2 n2 hv2
    rw [usersStore_success db s2 n2 e2 p2 hv2]
    show idBody (responseId (firstOrCreate e2 (bcryptGenerateFromPassword s2 p2) n2 db)) =
      idBody (responseId (firstOrCreate e (bcryptGenerateFromPassword s p) n db))
    rw [responseId_firstOrCreate db hwf e2 _ n2, responseId_firstOrCreate db hwf e _ n]

theorem c10_witness :
    (WF autoMigratedDB ∧ validateJSON "jason@mccallister.io" "somePassword1!" = []) ∧
    responseId (usersStore autoMigratedDB "abcdefghijklmnopqrstuv" 5
        ⟨"POST", some (Body.obj "jason@mccallister.io" "somePassword1!")⟩).2 =
      (match minIdRow autoMigratedDB.rows with
       | some u => u.ID
       | none => autoMigratedDB.nextId) :=
  ⟨⟨WF_autoMigratedDB, by decide⟩,
    (c10_response_id_min_primary_key autoMigratedDB "abcdefghijklmnopqrstuv" 5
      "jason@mccallister.io" "somePassword1!" WF_autoMigratedDB (by decide)).2.1⟩

/-- Claim C1, counterexample: from a store already holding the user created for
jason@mccallister.io (id 1), a successful signup for the distinct email
other@example.com stores that user under id 2, yet the 201 body reports id 1 -
the id in the body is not the identifier of the stored user whose email equals
the submitted email. -/
theorem c1_cex :
    ("jason@mccallister.io" : String) ≠ "other@example.com" ∧
    (usersStore (usersStore autoMigratedDB "abcdefghijklmnopqrstuv" 5
        ⟨"POST", some (Body.obj "jason@mccallister.io" "somePassword1!")⟩).2
        "ABCDEFGHIJKLMNOPQRSTUV" 6
        ⟨"POST", some (Body.obj "other@example.com" "otherPassword9!")⟩).1.status = 201 ∧
    ((findByEmail "other@example.com"
        (usersStore (usersStore autoMigratedDB "abcdefghijklmnopqrstuv" 5
          ⟨"POST", some (Body.obj "jason@mccallister.io" "somePassword1!")⟩).2
          "ABCDEFGHIJKLMNOPQRSTUV" 6
          ⟨"POST", some (Body.obj "other@example.com" "otherPassword9!")⟩).2).map user.ID)
      = some 2 ∧
    (usersStore (usersStore autoMigratedDB "abcdefghijklmnopqrstuv" 5
        ⟨"POST", some (Body.obj "jason@mccallister.io" "somePassword1!")⟩).2
        "ABCDEFGHIJKLMNOPQRSTUV" 6
        ⟨"POST", some (Body.obj "other@example.com" "otherPassword9!")⟩).1.body = idBody 1 ∧
    idBody 1 ≠ idBody 2 :=
  ⟨by decide, by decide, by decide, by decide, by decide⟩

/-- Claim C1, amended: for every POST request whose body parses and passes
validation, the handler answers 201 with JSON content-type and body carrying
the id of the minimal-primary-key row of the post-persistence table; a
subsequent store lookup by the submitted email finds a row with non-zero id,
and when the store held no rows before the request the reported id is exactly
that row's id. -/
theorem c1_success_response (db : GormDB) (s : String) (n : Nat) (e p : String)
    (hwf : WF db) (hv : validateJSON e p = []) :
    (usersStore db s n ⟨"POST", some (Body.obj e p)⟩).1.status = 201 ∧
    (usersStore db s n ⟨"POST", some (Body.obj e p)⟩).1.contentType = "application/json" ∧
    (usersStore db s n ⟨"POST", some (Body.obj e p)⟩).1.body =
      idBody (responseId (usersStore db s n ⟨"POST", some (Body.obj e p)⟩).2) ∧
    (∃ u, findByEmail e (usersStore db s n ⟨"POST", some (Body.obj e p)⟩).2 = some u ∧
      u.ID ≠ 0 ∧ u.Email = e) ∧
    (db.rows = [] →
      ∃ u, findByEmail e (usersStore db s n ⟨"POST", some (Body.obj e p)⟩).2 = some u ∧
        (usersStore db s n ⟨"POST", some (Body.obj e p)⟩).1.body = idBody u.ID) := by
  rw [usersStore_success db s n e p hv]
  refine ⟨rfl, rfl, rfl, ?_, ?_⟩
  · have hmem := firstOrCreate_mem_email e (bcryptGenerateFromPassword s p) n db
    obtain ⟨u, hfind, hue, humem⟩ := findByEmail_of_exists e _ hmem
    have hwf2 : WF (firstOrCreate e (bcryptGenerateFromPassword s p) n db) :=
      WF_firstOrCreate db hwf e _ n
    exact ⟨u, hfind, Nat.pos_iff_ne_zero.mp (hwf2.2.1 u humem).1, hue⟩
  · intro hrows
    have hfresh : ∀ u ∈ db.rows, u.Email ≠ e := by
      rw [hrows]
      intro u hu
      cases hu
    have hrid := responseId_firstOrCreate db hwf e (bcryptGenerateFromPassword s p) n
    rw [hrows] at hrid
    exact ⟨⟨db.nextId, e, bcryptGenerateFromPassword s p, n, n, none⟩,
      findByEmail_fresh_insert e _ n db hfresh, by rw [hrid]; rfl⟩

theorem c1_witness :
    (WF autoMigratedDB ∧ validateJSON "jason@mccallister.io" "somePassword1!" = []) ∧
    (∃ u, findByEmail "jason@mccallister.io"
        (usersStore autoMigratedDB "abcdefghijklmnopqrstuv" 5
          ⟨"POST", some (Body.obj "jason@mccallister.io" "somePassword1!")⟩).2 = some u ∧
      u.ID ≠ 0 ∧ u.Email = "jason@mccallister.io") :=
  ⟨⟨WF_autoMigratedDB, by decide⟩,
    (c1_success_response autoMigratedDB "abcdefghijklmnopqrstuv" 5
      "jason@mccallister.io" "somePassword1!" WF_autoMigratedDB (by decide)).2.2.2.1⟩

/-- Claim C7, counterexample: two successful signups with two distinct emails do not
always yield two distinct response ids - from an empty store, the signups for
jason@mccallister.io and team@example.com both answer 201 with the identical
body reporting id 1, because the reported id comes from the condition-less
minimum-primary-key query. -/
theorem c7_cex :
    ("jason@mccallister.io" : String) ≠ "team@example.com" ∧
    (usersStore autoMigratedDB "abcdefghijklmnopqrstuv" 5
      ⟨"POST", some (Body.obj "jason@mccallister.io" "somePassword1!")⟩).1.status = 201 ∧
    (usersStore (usersStore autoMigratedDB "abcdefghijklmnopqrstuv" 5
        ⟨"POST", some (Body.obj "jason@mccallister.io" "somePassword1!")⟩).2
        "ABCDEFGHIJKLMNOPQRSTUV" 6
        ⟨"POST", some (Body.obj "team@example.com" "anotherPass77!")⟩).1.status = 201 ∧
    (usersStore autoMigratedDB "abcdefghijklmnopqrstuv" 5
      ⟨"POST", some (Body.obj "jason@mccallister.io" "somePassword1!")⟩).1.body =
      (usersStore (usersStore autoMigratedDB "abcdefghijklmnopqrstuv" 5
        ⟨"POST", some (Body.obj "jason@mccallister.io" "somePassword1!")⟩).2
        "ABCDEFGHIJKLMNOPQRSTUV" 6
        ⟨"POST", some (Body.obj "team@example.com" "anotherPass77!")⟩).1.body :=
  ⟨by decide, by decide, by decide, by decide⟩

/-- Claim C7, amended: the store-level invariants hold: starting from a well-formed
store with pairwise-distinct emails, no sequence of requests through the
handler ever produces two stored rows with the same email, and any two
distinct stored rows - in particular the rows created by two successful
signups with two distinct emails - have distinct emails and distinct ids
(the two HTTP responses, however, may report the same id). -/
theorem c7_store_unique_emails (items : List (String × Nat × HttpRequest))
    (db : GormDB) (hwf : WF db) (hem : EmailsOk db) :
    WF (runRequests db items) ∧ EmailsOk (runRequests db items) ∧
    (∀ u ∈ (runRequests db items).rows, ∀ v ∈ (runRequests db items).rows,
      u ≠ v → u.Email ≠ v.Email ∧ u.ID ≠ v.ID) := by
  obtain ⟨hwf2, hem2⟩ := runRequests_preserves items db hwf hem
  refine ⟨hwf2, hem2, ?_⟩
  have hid : (runRequests db items).rows.Pairwise (fun a b => a.ID ≠ b.ID) :=
    hwf2.2.2.imp (fun h => Nat.ne_of_lt h)
  have hpair : (runRequests db items).rows.Pairwise
      (fun a b => a.Email ≠ b.Email ∧ a.ID ≠ b.ID) := hem2.and hid
  have hsymm : Symmetric (fun a b : user => a.Email ≠ b.Email ∧ a.ID ≠ b.ID) :=
    fun a b h => ⟨h.1.symm, h.2.symm⟩
  intro u hu v hv hne
  exact hpair.forall hsymm hu hv hne

theorem c7_witness :
    (WF autoMigratedDB ∧ EmailsOk autoMigratedDB) ∧
    EmailsOk (runRequests autoMigratedDB
      [("abcdefghijklmnopqrstuv", 5,
        ⟨"POST", some (Body.obj "jason@mccallister.io" "somePassword1!")⟩),
       ("ABCDEFGHIJKLMNOPQRSTUV", 6,
        ⟨"POST", some (Body.obj "team@example.com" "anotherPass77!")⟩)]) :=
  ⟨⟨WF_autoMigratedDB, EmailsOk_autoMigratedDB⟩,
    (c7_store_unique_emails
      [("abcdefghijklmnopqrstuv", 5,
        ⟨"POST", some (Body.obj "jason@mccallister.io" "somePassword1!")⟩),
       ("ABCDEFGHIJKLMNOPQRSTUV", 6,
        ⟨"POST", some (Body.obj "team@example.com" "anotherPass77!")⟩)]
      autoMigratedDB WF_autoMigratedDB EmailsOk_autoMigratedDB).2.1⟩

end GoRestTdd
